import Mathlib

/-!
Verification of `src/plugins/dns-operation/dnsResolver.js` (serverless-dns).

The JavaScript source is shallowly embedded: byte buffers become `List Nat`,
the fetch `Response` becomes a record, promises that have settled become a
record of a settlement time and an `Except` outcome, and `Promise.any` becomes
a function picking the earliest fulfilled element.  External collaborators
that the repository keeps outside this file (URL parsing, base64url encoding,
the DNS codec, the UDP/TCP transport, the network itself) are oracles passed
in as function-valued parameters, so every theorem quantifies over their
behaviour.  Helpers of the repository that are not part of `src/`
(`util.emptyString`, `util.emptyArray`, `dnsutil.truncated`,
`util.respond503`, header builders) are modelled from the spec; each such
definition says so in its doc comment.
-/

/-- A byte sequence (JS `ArrayBuffer` / node `Buffer`): `bufutil.bufferOf`
and `bufutil.arrayBufferOf` are inverse coercions between the two and are
the identity in this model. -/
abbrev Bytes := List Nat

/-- The mutable fields of a JS `URL` object that `resolveDnsUpstream`
reads or overrides (lines 148-159 of the source). -/
structure URLModel where
  protocol : String
  hostname : String
  port : String
  pathname : String
  search : String
deriving DecidableEq, Repr

/-- A fetch-API `Response`: status, status text, headers and body bytes. -/
structure Response where
  status : Nat
  statusText : String
  headers : List (String × String)
  body : Bytes
deriving DecidableEq, Repr

/-- Fetch-API `Response.ok`: the status is in the success range 200-299. -/
def responseOk (r : Response) : Bool :=
  200 ≤ r.status && r.status < 300

/-- `new Response(bufutil.arrayBufferOf(ans))` (line 139): a fresh response
carrying the answer bytes, with the default status 200. -/
def responseOfAns (ans : Bytes) : Response :=
  { status := 200, statusText := "", headers := [], body := ans }

/-- Modelled from the spec: `util.respond503`, absent from `src/` — a
generic "service unavailable" outcome mapped to an HTTP-like 503 status. -/
def respond503 : Response :=
  { status := 503, statusText := "Service Unavailable", headers := [], body := [] }

/-- A fetch-API `Request` as used by the resolver: method, (parsed) URL,
headers, and an optional body. -/
structure DnsRequest where
  method : String
  url : URLModel
  headers : List (String × String)
  body : Option Bytes
deriving DecidableEq, Repr

/-- `util.isGetRequest` (line 158). -/
def isGetRequest (r : DnsRequest) : Bool := r.method == "GET"

/-- `util.isPostRequest` (line 163). -/
def isPostRequest (r : DnsRequest) : Bool := r.method == "POST"

/-- Modelled from the spec: `util.emptyString`, absent from `src/` — true on
an empty or blank (whitespace-only) string. -/
def emptyString (s : String) : Bool :=
  s.data.all Char.isWhitespace

/-- Modelled from the spec: `dnsutil.truncated`, absent from `src/` — tests
the DNS truncation (TC) flag, bit 1 of the third byte of the DNS header. -/
def truncated (ans : Bytes) : Bool :=
  match ans.get? 2 with
  | some b => (b / 2) % 2 == 1
  | none => false

/-- Modelled from the spec: `util.contentLengthHeader(query)` — a
`content-length` header carrying the query's byte length. -/
def contentLengthHeader (q : Bytes) : List (String × String) :=
  [("content-length", toString q.length)]

/-- Modelled from the spec: `util.dnsHeaders()` — the DNS media-type
headers of a DoH POST exchange. -/
def dnsHeaders : List (String × String) :=
  [("accept", "application/dns-message"), ("content-type", "application/dns-message")]

/-- Modelled from the spec: `util.concatHeaders` — header concatenation. -/
def concatHeaders (h1 h2 : List (String × String)) : List (String × String) :=
  h1 ++ h2

/-- Environment/config discovery (`envutil`), an external collaborator:
execution-environment flags and the preconfigured resolver URLs. -/
structure Env where
  isNode : Bool
  isWorkers : Bool
  dohResolver : String
  secondaryDohResolver : String
deriving DecidableEq, Repr

/-- The UDP/TCP transport adapter (`core/node/dns-transport.js`), an
external collaborator: one UDP exchange and one TCP exchange, each taking
the raw query bytes and returning the raw answer bytes, or nothing. -/
structure Transport where
  udpquery : Bytes → Option Bytes
  tcpquery : Bytes → Option Bytes

/-- The mutable fields of a `DNSResolver` instance (constructor,
lines 15-24): the lazily imported capabilities are modelled by whether they
are present (`http2`, `nodeUtil`) or by the created adapter (`transport`). -/
structure ResolverState where
  http2 : Bool
  nodeUtil : Bool
  transport : Option Transport
  preferredDohResolvers : List String

/-- `new DNSResolver()` (lines 15-24): no capabilities yet, and the
preferred resolvers are the preconfigured primary and secondary ones. -/
def freshResolver (env : Env) : ResolverState :=
  { http2 := false
    nodeUtil := false
    transport := none
    preferredDohResolvers := [env.dohResolver, env.secondaryDohResolver] }

/-- `lazyInit` (lines 26-42): on node, each absent capability is created;
elsewhere the state is untouched.  `t0` is the transport adapter that
`new Transport(plainOldDnsIp, 53)` would produce. -/
def lazyInit (env : Env) (t0 : Transport) (st : ResolverState) : ResolverState :=
  let st1 := if env.isNode && !st.http2 then { st with http2 := true } else st
  let st2 := if env.isNode && !st1.nodeUtil then { st1 with nodeUtil := true } else st1
  if env.isNode && st2.transport.isNone then { st2 with transport := some t0 } else st2

/-- The dynamically typed value `determineDohResolvers` returns: three of
its branches return a JS array of strings, the last returns a bare string
(line 82 has no array brackets around `envutil.dohResolver()`). -/
inductive UrlsVal where
  | arr : List String → UrlsVal
  | str : String → UrlsVal
deriving DecidableEq, Repr

/-- Modelled from the spec: `util.emptyArray`, absent from `src/` — an
array is empty when it has no elements; a bare string reaching this test
(possible via `determineDohResolvers`' final branch) is "empty" exactly
when it is the empty string, since JS treats a non-empty string as a
non-empty array-like and the empty string as falsy. -/
def emptyArray : UrlsVal → Bool
  | .arr l => l.isEmpty
  | .str s => s.isEmpty

/-- JS `for (const rurl of resolverUrls)`: iterating an array yields its
elements; iterating a string yields its characters as 1-character strings. -/
def jsIter : UrlsVal → List String
  | .arr l => l
  | .str s => s.data.map (fun c => String.mk [c])

/-- `determineDohResolvers` (lines 70-83), translated branch for branch:
note that the final branch returns the bare string `envutil.dohResolver()`,
not a one-element array. -/
def determineDohResolvers (env : Env) (st : ResolverState) (userDnsResolverUrl : String) : UrlsVal :=
  match st.transport with
  | some _ => .arr []
  | none =>
    if !emptyString userDnsResolverUrl then .arr [userDnsResolverUrl]
    else if env.isWorkers then .arr st.preferredDohResolvers
    else .str env.dohResolver

deriving instance DecidableEq for Except

/-- A promise that has settled: the (abstract) time at which it settled and
its outcome.  The core assumes every attempt eventually settles (spec §5),
so modelling attempts as settled promises is faithful. -/
structure Settled where
  time : Nat
  result : Except String Response
deriving DecidableEq, Repr

/-- Whether a settled promise was fulfilled. -/
def Settled.isOk (s : Settled) : Bool :=
  match s.result with
  | .ok _ => true
  | .error _ => false

/-- The earliest fulfilled promise of the list (its settlement time and
value); ties are broken towards the front of the list. -/
def firstSuccess : List Settled → Option (Nat × Response)
  | [] => none
  | s :: rest =>
    match s.result with
    | .ok r =>
      match firstSuccess rest with
      | none => some (s.time, r)
      | some (t2, r2) => if s.time ≤ t2 then some (s.time, r) else some (t2, r2)
    | .error _ => firstSuccess rest

/-- The rejection reasons of the list, in list order. -/
def errorsOf : List Settled → List String
  | [] => []
  | s :: rest =>
    match s.result with
    | .ok _ => errorsOf rest
    | .error e => e :: errorsOf rest

/-- Errors a DoH resolution can surface: an ordinary `Error(message)` or
the `AggregateError` that `Promise.any` produces when every participant
rejects, carrying all rejection reasons. -/
inductive JSError where
  | err : String → JSError
  | aggregate : List String → JSError
deriving DecidableEq, Repr

/-- `Promise.any` (line 178): the value of the earliest fulfilled
participant, or an `AggregateError` of all rejection reasons if none
fulfills. -/
def promiseAnyR (ps : List Settled) : Except JSError Response :=
  match firstSuccess ps with
  | some tr => .ok tr.2
  | none => .error (.aggregate (errorsOf ps))

/-- `Promise.reject(new Error("no upstream"))` (line 142): a promise that
is already rejected when the race list is created. -/
def sentinelReject : Settled :=
  { time := 0, result := .error "no upstream" }

/-- Which DoH adapter line 175 dispatches an attempt through. -/
inductive Adapter where
  | doh2
  | fetch
deriving DecidableEq, Repr

/-- One observable I/O action of the resolver: a UDP or TCP transport
exchange, or the dispatch of one DoH attempt through an adapter. -/
inductive Call where
  | udp : Bytes → Call
  | tcp : Bytes → Call
  | doh : Adapter → DnsRequest → Call
deriving DecidableEq, Repr

/-- Structured decoded DNS message, produced by the external codec
(`dnsutil.decode`); its internal structure is irrelevant here. -/
structure DnsPacket where
  fields : List Nat
deriving DecidableEq, Repr

/-- External capabilities used by the resolver, passed as oracles:
URL parsing, base64url encoding, the network behaviour of each dispatched
DoH attempt, and the DNS codec. -/
structure ExtCaps where
  parseURL : String → URLModel
  b64url : Bytes → String
  net : Adapter → DnsRequest → Settled
  decode : Bytes → Except String DnsPacket

/-- Line 175: attempts go through `doh2` when the `http2` capability is
present, else through the generic `fetch`. -/
def adapterOf (st : ResolverState) : Adapter :=
  if st.http2 then .doh2 else .fetch

/-- Lines 148-153: the endpoint URL's hostname, pathname, port and
protocol override those of the original request URL; everything else
(including the original search string) is kept. -/
def overrideURL (base up : URLModel) : URLModel :=
  { base with
    hostname := up.hostname
    pathname := up.pathname
    port := up.port
    protocol := up.protocol }

/-- Lines 155-174: build the per-endpoint upstream request.  GET requests
carry the query as a base64url `dns` search parameter; POST requests carry
it as the body with content-length and DNS media-type headers; any other
method yields no request (the source returns a rejected promise there). -/
def buildDohRequest (ext : ExtCaps) (request : DnsRequest) (rurl : String) (query : Bytes) : Option DnsRequest :=
  let u := overrideURL request.url (ext.parseURL rurl)
  if isGetRequest request then
    some { method := "GET"
           url := { u with search := "?dns=" ++ ext.b64url query }
           headers := []
           body := none }
  else if isPostRequest request then
    some { method := "POST"
           url := u
           headers := concatHeaders (contentLengthHeader query) dnsHeaders
           body := some query }
  else
    none

/-- The loop of lines 143-176: blank URLs are skipped; for each remaining
URL one attempt is dispatched (its settled outcome given by the network
oracle) and recorded as a `Call.doh`; a URL whose request cannot be built
(method neither GET nor POST) aborts the whole loop — and since the method
is the same at every iteration, no attempt was dispatched before the
abort. -/
def dohAttempts (ext : ExtCaps) (st : ResolverState) (request : DnsRequest) (urls : List String) (query : Bytes) :
    Option (List Settled × List Call) :=
  match urls with
  | [] => some ([], [])
  | rurl :: rest =>
    if emptyString rurl then dohAttempts ext st request rest query
    else
      match buildDohRequest ext request rurl query with
      | none => none
      | some dnsreq =>
        match dohAttempts ext st request rest query with
        | none => none
        | some (ps, cs) =>
          some (ext.net (adapterOf st) dnsreq :: ps, Call.doh (adapterOf st) dnsreq :: cs)

/-- `resolveDnsUpstream` (lines 123-179) with its trace of I/O actions.
With no DoH upstream set, the plain path runs: one UDP exchange, then —
only if the answer exists and is truncated — one TCP exchange with the same
bytes; a missing answer becomes the 503 outcome.  Otherwise the DoH race
runs: the method guard may reject, else `Promise.any` is applied to the
sentinel rejection followed by one attempt per non-blank URL. -/
def resolveDnsUpstream (ext : ExtCaps) (st : ResolverState) (request : DnsRequest) (resolverUrls : UrlsVal) (query : Bytes) :
    Except JSError Response × List Call :=
  if emptyArray resolverUrls then
    match st.transport with
    | none => (.error (.err "TypeError: this.transport is null"), [])
    | some t =>
      match t.udpquery query with
      | some ans =>
        if truncated ans then
          match t.tcpquery query with
          | some ans2 => (.ok (responseOfAns ans2), [Call.udp query, Call.tcp query])
          | none => (.ok respond503, [Call.udp query, Call.tcp query])
        else
          (.ok (responseOfAns ans), [Call.udp query])
      | none => (.ok respond503, [Call.udp query])
  else
    match dohAttempts ext st request (jsIter resolverUrls) query with
    | none => (.error (.err "get/post requests only"), [])
    | some (ps, cs) => (promiseAnyR (sentinelReject :: ps), cs)

/-- The decoded answer handed upward: the structured message paired with
the raw bytes it was decoded from (lines 109-112). -/
structure DecodedAnswer where
  dnsPacket : DnsPacket
  dnsBuffer : Bytes
deriving DecidableEq, Repr

/-- `decodeResponse` (lines 97-113), paired with whether the DNS codec was
invoked: a missing outcome and a non-success status fail without touching
the codec; a success status has its body decoded, the codec's own failure
propagating. -/
def decodeResponse (ext : ExtCaps) (response : Option Response) : Except JSError DecodedAnswer × Bool :=
  match response with
  | none => (.error (.err "no upstream result"), false)
  | some r =>
    if responseOk r then
      match ext.decode r.body with
      | .ok pkt => (.ok { dnsPacket := pkt, dnsBuffer := r.body }, true)
      | .error e => (.error (.err e), true)
    else
      (.error (.err (toString r.status ++ " http err: " ++ r.statusText)), false)

/-- The bag of inputs `RethinkModule` receives (lines 44-55), restricted to
the fields the resolver reads. -/
structure Param where
  request : DnsRequest
  requestBodyBuffer : Bytes
  userDnsResolverUrl : String

/-- `resolveDns` (lines 85-95) with the trace of I/O actions: select the
upstreams, race (or plain-resolve) the query, then decode the outcome; a
rejected upstream promise propagates as the error of the whole resolution. -/
def resolveDns (env : Env) (ext : ExtCaps) (st : ResolverState) (p : Param) :
    Except JSError DecodedAnswer × List Call :=
  let upstreams := determineDohResolvers env st p.userDnsResolverUrl
  match resolveDnsUpstream ext st p.request upstreams p.requestBodyBuffer with
  | (.error e, calls) => (.error e, calls)
  | (.ok r, calls) => ((decodeResponse ext (some r)).1, calls)

/-- `RethinkModule` (lines 56-68) with the trace of I/O actions: lazy
initialisation from a freshly constructed resolver, then resolution; the
catch block turns a thrown error into an error envelope, which `Except`
already models. -/
def rethinkModule (env : Env) (ext : ExtCaps) (t0 : Transport) (p : Param) :
    Except JSError DecodedAnswer × List Call :=
  let st := lazyInit env t0 (freshResolver env)
  resolveDns env ext st p

/-- An event the HTTP/2 machinery can deliver to the handlers `doh2`
registers: a connection-level error, the stream's response headers, a body
data chunk, the end-of-stream signal, or a stream-level error. -/
inductive H2Ev where
  | connError : String → H2Ev
  | response : List (String × String) → H2Ev
  | data : Bytes → H2Ev
  | streamEnd : H2Ev
  | streamError : String → H2Ev
deriving DecidableEq, Repr

/-- One action of a `doh2` exchange, in the order it is performed: the
synchronous steps of the promise executor (lines 200-242) and the actions
the registered handlers later perform.  `closeConn b` records the
best-effort `util.safeBox(c.close)` call, `b` telling whether the close
itself succeeded; `settleOk` and `settleErr` record the effective
resolution or rejection of the promise. -/
inductive DohAction where
  | connect : String → DohAction
  | regConnError : DohAction
  | openStream : String → String → DohAction
  | regResponse : DohAction
  | regReqError : DohAction
  | write : Bytes → DohAction
  | regData : DohAction
  | regEnd : DohAction
  | closeConn : Bool → DohAction
  | settleOk : Response → DohAction
  | settleErr : String → DohAction
deriving DecidableEq, Repr

/-- The state a `doh2` exchange accumulates across events: the response
headers once received (doubling as "the data/end handlers are registered",
since they are registered inside the response handler), the body chunks
collected so far, and the promise's settlement, if any. -/
structure H2St where
  resp : Option (List (String × String))
  chunks : List Bytes
  settled : Option (Except String Response)
deriving DecidableEq, Repr

/-- Modelled from the spec: `transformPseudoHeaders` (node util, absent
from `src/`) turns protocol pseudo-headers into a conventional response
init; it is an oracle here. -/
structure RespInit where
  status : Nat
  statusText : String
  headers : List (String × String)
deriving DecidableEq, Repr

/-- How the handlers registered by `doh2` (lines 206-232) react to one
incoming event.  A promise settles at most once: a later `resolve` or
`reject` is ignored.  Data and end events arriving before the response
event are lost, because their handlers are only registered inside the
response handler.  The end handler calls `util.safeBox(c.close)` — the
close is attempted unconditionally (`cf` says whether closing fails, the
failure being swallowed) — and then resolves with the accumulated body and
the transformed headers. -/
def h2step (tph : List (String × String) → RespInit) (cf : Bool) (s : H2St) (e : H2Ev) :
    H2St × List DohAction :=
  match e with
  | .connError m =>
    match s.settled with
    | none => ({ s with settled := some (.error m) }, [DohAction.settleErr m])
    | some _ => (s, [])
  | .response h =>
    match s.resp with
    | none => ({ s with resp := some h, chunks := [] }, [DohAction.regData, DohAction.regEnd])
    | some _ => (s, [])
  | .data c =>
    match s.resp with
    | some _ => ({ s with chunks := s.chunks ++ [c] }, [])
    | none => (s, [])
  | .streamEnd =>
    match s.resp with
    | some h =>
      let ri := tph h
      let r : Response := { status := ri.status, statusText := ri.statusText,
                            headers := ri.headers, body := s.chunks.flatten }
      match s.settled with
      | none => ({ s with settled := some (.ok r) }, [DohAction.closeConn (!cf), DohAction.settleOk r])
      | some _ => (s, [DohAction.closeConn (!cf)])
    | none => (s, [])
  | .streamError m =>
    match s.settled with
    | none => ({ s with settled := some (.error m) }, [DohAction.settleErr m])
    | some _ => (s, [])

/-- Runs the registered handlers over a whole schedule of events,
accumulating the actions they perform. -/
def h2run (tph : List (String × String) → RespInit) (cf : Bool) (s : H2St) :
    List H2Ev → H2St × List DohAction
  | [] => (s, [])
  | e :: rest =>
    let se := h2step tph cf s e
    let sr := h2run tph cf se.1 rest
    (sr.1, se.2 ++ sr.2)

/-- JS `URL.origin`: scheme + host (+ port when present). -/
def origin (u : URLModel) : String :=
  u.protocol ++ "//" ++ u.hostname ++ (if u.port.isEmpty then "" else ":" ++ u.port)

/-- The query bytes `doh2` writes: the request's body, empty for a GET. -/
def bodyBytes (r : DnsRequest) : Bytes :=
  r.body.getD []

/-- The synchronous steps of the `doh2` promise executor, in program order
(lines 203-242): connect to the authority, register the connection error
handler, open the stream with the request's method and path, register the
response and stream error handlers, and only then write the query bytes
with `req.end`. -/
def doh2ProgOrder (request : DnsRequest) : List DohAction :=
  [DohAction.connect (origin request.url),
   DohAction.regConnError,
   DohAction.openStream request.method request.url.pathname,
   DohAction.regResponse,
   DohAction.regReqError,
   DohAction.write (bodyBytes request)]

/-- One whole `doh2` exchange (lines 187-244): the program-order steps of
the executor followed by whatever the handlers do under the event schedule
`events`; the exchange's result is the promise's settlement (`none` when
no terminal event ever fires — the caller would hang). -/
def doh2Run (tph : List (String × String) → RespInit) (request : DnsRequest) (cf : Bool)
    (events : List H2Ev) : List DohAction × Option (Except String Response) :=
  let d := h2run tph cf { resp := none, chunks := [], settled := none } events
  (doh2ProgOrder request ++ d.2, d.1.settled)

/-- The guard of `doh2` (lines 188-190): without the `http2` and
`nodeUtil` capabilities the exchange is never started. -/
def doh2Guarded (st : ResolverState) (tph : List (String × String) → RespInit)
    (request : DnsRequest) (cf : Bool) (events : List H2Ev) :
    Except String (List DohAction × Option (Except String Response)) :=
  if !st.http2 || !st.nodeUtil then .error "h2 / node-util not setup, bailing"
  else .ok (doh2Run tph request cf events)

/-- Whether a trace contains a connection-close attempt. -/
def hasClose (t : List DohAction) : Bool :=
  t.any fun a => match a with | .closeConn _ => true | _ => false

/-! ## Race semantics lemmas -/

theorem firstSuccess_err_cons (s : Settled) (l : List Settled) (h : s.isOk = false) :
    firstSuccess (s :: l) = firstSuccess l := by
  cases hr : s.result with
  | ok r => simp [Settled.isOk, hr] at h
  | error e => simp [firstSuccess, hr]

theorem firstSuccess_all_err (l : List Settled) (h : ∀ s ∈ l, s.isOk = false) :
    firstSuccess l = none := by
  induction l with
  | nil => rfl
  | cons s rest ih =>
    rw [firstSuccess_err_cons s rest (h s (by simp))]
    exact ih (fun x hx => h x (by simp [hx]))

theorem firstSuccess_append_err (l1 l2 : List Settled) (h : ∀ s ∈ l1, s.isOk = false) :
    firstSuccess (l1 ++ l2) = firstSuccess l2 := by
  induction l1 with
  | nil => rfl
  | cons s rest ih =>
    rw [List.cons_append, firstSuccess_err_cons s _ (h s (by simp))]
    exact ih (fun x hx => h x (by simp [hx]))

theorem firstSuccess_unique (t : Nat) (r : Response) (l : List Settled)
    (h : ∀ s ∈ l, s.isOk = false) :
    firstSuccess ({ time := t, result := .ok r } :: l) = some (t, r) := by
  simp [firstSuccess, firstSuccess_all_err l h]

theorem sentinelReject_isOk : sentinelReject.isOk = false := rfl

theorem dohAttempts_nil (ext : ExtCaps) (st : ResolverState) (request : DnsRequest) (q : Bytes) :
    dohAttempts ext st request [] q = some ([], []) := rfl

theorem resolveDnsUpstream_doh (ext : ExtCaps) (st : ResolverState) (request : DnsRequest)
    (urls : List String) (q : Bytes) (ps : List Settled) (cs : List Call)
    (hne : urls ≠ [])
    (h : dohAttempts ext st request urls q = some (ps, cs)) :
    resolveDnsUpstream ext st request (.arr urls) q = (promiseAnyR (sentinelReject :: ps), cs) := by
  cases urls with
  | nil => exact absurd rfl hne
  | cons u rest =>
    simp [resolveDnsUpstream, emptyArray, jsIter, h]

/-! ## C1, C2, C7: the DoH race -/

/-- C1: on the DoH path with a non-empty endpoint set, if exactly one of
the dispatched attempts is fulfilled — whatever its position among the
attempts and whatever its settlement time — then `resolveDnsUpstream`
returns exactly that attempt's successful outcome; the other attempts'
settlements (all rejections here) do not influence the result, and the
model's race only ever exposes the winner to the caller. -/
theorem c1_race_unique_success
    (ext : ExtCaps) (st : ResolverState) (request : DnsRequest) (urls : List String)
    (query : Bytes) (ps1 ps2 : List Settled) (t : Nat) (r : Response) (cs : List Call)
    (h : dohAttempts ext st request urls query =
      some (ps1 ++ { time := t, result := .ok r } :: ps2, cs))
    (h1 : ∀ s ∈ ps1, s.isOk = false)
    (h2 : ∀ s ∈ ps2, s.isOk = false) :
    (resolveDnsUpstream ext st request (.arr urls) query).1 = .ok r := by
  have hne : urls ≠ [] := by
    intro hn
    subst hn
    rw [dohAttempts_nil] at h
    simp at h
  rw [resolveDnsUpstream_doh ext st request urls query _ cs hne h]
  simp only [promiseAnyR]
  rw [firstSuccess_err_cons sentinelReject _ sentinelReject_isOk,
    firstSuccess_append_err _ _ h1, firstSuccess_unique t r ps2 h2]

/-! ## Concrete fixtures for witnesses and counterexamples -/

/-- A concrete original request URL. -/
def urlB : URLModel :=
  { protocol := "https:", hostname := "edge.example", port := "", pathname := "/", search := "" }

/-- Concrete external capabilities: the URL parser keeps the raw string as
the hostname, and the network fulfills (at time 7) exactly the attempt
aimed at `https://good.example`, rejecting every other attempt earlier
(at time 1). -/
def ext0 : ExtCaps :=
  { parseURL := fun s =>
      { protocol := "https:", hostname := s, port := "443", pathname := "/dns-query", search := "" }
    b64url := fun _ => "qdata"
    net := fun _ req =>
      if req.url.hostname = "https://good.example" then
        { time := 7, result := .ok (responseOfAns [9, 9]) }
      else
        { time := 1, result := .error "ECONNREFUSED" }
    decode := fun b => .ok { fields := b } }

/-- A resolver state with no capabilities (a fresh non-node instance). -/
def st0 : ResolverState :=
  { http2 := false, nodeUtil := false, transport := none, preferredDohResolvers := [] }

/-- A concrete GET request. -/
def getReq0 : DnsRequest := { method := "GET", url := urlB, headers := [], body := none }

/-- A concrete PUT request (method neither GET nor POST). -/
def putReq0 : DnsRequest := { method := "PUT", url := urlB, headers := [], body := none }

/-- The upstream request `resolveDnsUpstream` builds from `getReq0` and a
resolver URL under `ext0`. -/
def wreq (h : String) : DnsRequest :=
  { method := "GET"
    url := { protocol := "https:", hostname := h, port := "443", pathname := "/dns-query",
             search := "?dns=qdata" }
    headers := []
    body := none }

/-- Witness for C1 at a concrete input: two endpoints, the second (and
slower-settling) one being the only success; the race returns its
outcome. -/
theorem c1_race_unique_success_witness :
    (resolveDnsUpstream ext0 st0 getReq0
      (.arr ["https://bad.example", "https://good.example"]) [1, 2]).1 =
      .ok (responseOfAns [9, 9]) :=
  c1_race_unique_success ext0 st0 getReq0 ["https://bad.example", "https://good.example"]
    [1, 2] [{ time := 1, result := .error "ECONNREFUSED" }] [] 7 (responseOfAns [9, 9])
    [Call.doh .fetch (wreq "https://bad.example"), Call.doh .fetch (wreq "https://good.example")]
    (by decide) (by decide) (by decide)

/-- C2 (amended): on the DoH path, whenever the per-endpoint request
construction does not abort with the method guard (captured by
`dohAttempts` returning a value) and every dispatched attempt fails,
`resolveDnsUpstream` fails with the aggregate error collecting the
sentinel's "no upstream" reason followed by every attempt's reason, in
dispatch order — in particular no partial or garbage success is returned. -/
theorem c2_all_fail_aggregate
    (ext : ExtCaps) (st : ResolverState) (request : DnsRequest) (urls : List String)
    (query : Bytes) (ps : List Settled) (cs : List Call)
    (hne : urls ≠ [])
    (h : dohAttempts ext st request urls query = some (ps, cs))
    (hall : ∀ s ∈ ps, s.isOk = false) :
    (resolveDnsUpstream ext st request (.arr urls) query).1 =
      .error (.aggregate ("no upstream" :: errorsOf ps)) := by
  rw [resolveDnsUpstream_doh ext st request urls query ps cs hne h]
  simp only [promiseAnyR]
  have hfs : firstSuccess (sentinelReject :: ps) = none := by
    apply firstSuccess_all_err
    intro s hs
    rcases List.mem_cons.mp hs with h1 | h2
    · subst h1; rfl
    · exact hall s h2
  rw [hfs]
  simp [errorsOf, sentinelReject]

/-- Counterexample to C2 as frozen: a resolution on the DoH path with a
PUT request and one (non-blank) endpoint.  The sentinel rejection exists
and fails and no endpoint attempt succeeds (none is even dispatched: the
trace is empty), yet the resolution fails with the plain protocol error
`Error("get/post requests only")`, which is not an aggregate error. -/
theorem c2_counterexample :
    resolveDnsUpstream ext0 st0 putReq0 (.arr ["https://u.example"]) [1] =
      (.error (.err "get/post requests only"), []) ∧
    decide (JSError.err "get/post requests only" = JSError.aggregate ["no upstream"]) = false :=
  ⟨by decide, by decide⟩

/-- Witness for C2 (amended) at a concrete input: two endpoints, both
rejected; the race fails with the aggregate of all three reasons. -/
theorem c2_all_fail_aggregate_witness :
    (resolveDnsUpstream ext0 st0 getReq0
      (.arr ["https://bad.example", "https://bad2.example"]) [1, 2]).1 =
      .error (.aggregate ["no upstream", "ECONNREFUSED", "ECONNREFUSED"]) :=
  c2_all_fail_aggregate ext0 st0 getReq0 ["https://bad.example", "https://bad2.example"] [1, 2]
    [{ time := 1, result := .error "ECONNREFUSED" }, { time := 1, result := .error "ECONNREFUSED" }]
    [Call.doh .fetch (wreq "https://bad.example"), Call.doh .fetch (wreq "https://bad2.example")]
    (by decide) (by decide) (by decide)

/-- With a request whose method is neither GET nor POST, the loop of
lines 143-176 aborts at the first non-blank URL, before any attempt has
been dispatched (blank URLs are skipped, and the method does not change
between iterations). -/
theorem dohAttempts_bad_method
    (ext : ExtCaps) (st : ResolverState) (request : DnsRequest) (urls : List String)
    (query : Bytes)
    (hg : isGetRequest request = false) (hp : isPostRequest request = false)
    (hnb : ∃ u ∈ urls, emptyString u = false) :
    dohAttempts ext st request urls query = none := by
  induction urls with
  | nil => simp at hnb
  | cons u rest ih =>
    cases hu : emptyString u with
    | true =>
      have hr : ∃ v ∈ rest, emptyString v = false := by
        rcases hnb with ⟨v, hv, hvf⟩
        rcases List.mem_cons.mp hv with h1 | h2
        · subst h1; rw [hu] at hvf; cases hvf
        · exact ⟨v, h2, hvf⟩
      simp [dohAttempts, hu, ih hr]
    | false =>
      have hb : buildDohRequest ext request u query = none := by
        simp [buildDohRequest, hg, hp]
      simp [dohAttempts, hu, hb]

/-- Counterexample to C7 as frozen: a DoH-path resolution (the endpoint
set `[""]` is non-empty) whose method is PUT, but whose only URL is blank:
the method guard is never reached, so the resolution does not fail with
the protocol error — it fails with the aggregate "no upstream" error
instead (still with no attempt dispatched). -/
theorem c7_counterexample :
    resolveDnsUpstream ext0 st0 putReq0 (.arr [""]) [1] =
      (.error (.aggregate ["no upstream"]), []) ∧
    decide (JSError.aggregate ["no upstream"] = JSError.err "get/post requests only") = false :=
  ⟨by decide, by decide⟩

/-- C7 (amended): on the DoH path, a request whose method is neither GET
nor POST fails with the protocol error `Error("get/post requests only")`
with an empty I/O trace — no upstream attempt dispatched, no network call,
no transport call — provided at least one configured URL is non-blank (if
every URL is blank the guard is never reached and the race fails with the
aggregate error instead, still without any attempt). -/
theorem c7_method_guard
    (ext : ExtCaps) (st : ResolverState) (request : DnsRequest) (urls : List String)
    (query : Bytes)
    (hg : isGetRequest request = false) (hp : isPostRequest request = false)
    (hnb : ∃ u ∈ urls, emptyString u = false) :
    resolveDnsUpstream ext st request (.arr urls) query =
      (.error (.err "get/post requests only"), []) := by
  cases urls with
  | nil => simp at hnb
  | cons u rest =>
    simp [resolveDnsUpstream, emptyArray, jsIter,
      dohAttempts_bad_method ext st request (u :: rest) query hg hp hnb]

/-- Witness for C7 (amended) at a concrete input: a PUT request with one
non-blank endpoint fails with the protocol error and an empty trace. -/
theorem c7_method_guard_witness :
    resolveDnsUpstream ext0 st0 putReq0 (.arr ["https://u2.example"]) [2] =
      (.error (.err "get/post requests only"), []) :=
  c7_method_guard ext0 st0 putReq0 ["https://u2.example"] [2] (by decide) (by decide)
    ⟨"https://u2.example", by decide, by decide⟩

/-! ## The plain-transport path (lines 130-139) -/

theorem plain_udp_none (ext : ExtCaps) (st : ResolverState) (request : DnsRequest)
    (query : Bytes) (tr : Transport)
    (h : st.transport = some tr) (hu : tr.udpquery query = none) :
    resolveDnsUpstream ext st request (.arr []) query = (.ok respond503, [Call.udp query]) := by
  simp [resolveDnsUpstream, emptyArray, h, hu]

theorem plain_not_trunc (ext : ExtCaps) (st : ResolverState) (request : DnsRequest)
    (query : Bytes) (tr : Transport) (ans : Bytes)
    (h : st.transport = some tr) (hu : tr.udpquery query = some ans)
    (ht : truncated ans = false) :
    resolveDnsUpstream ext st request (.arr []) query =
      (.ok (responseOfAns ans), [Call.udp query]) := by
  simp [resolveDnsUpstream, emptyArray, h, hu, ht]

theorem plain_trunc_tcp (ext : ExtCaps) (st : ResolverState) (request : DnsRequest)
    (query : Bytes) (tr : Transport) (ans ans2 : Bytes)
    (h : st.transport = some tr) (hu : tr.udpquery query = some ans)
    (ht : truncated ans = true) (htc : tr.tcpquery query = some ans2) :
    resolveDnsUpstream ext st request (.arr []) query =
      (.ok (responseOfAns ans2), [Call.udp query, Call.tcp query]) := by
  simp [resolveDnsUpstream, emptyArray, h, hu, ht, htc]

theorem plain_trunc_tcp_none (ext : ExtCaps) (st : ResolverState) (request : DnsRequest)
    (query : Bytes) (tr : Transport) (ans : Bytes)
    (h : st.transport = some tr) (hu : tr.udpquery query = some ans)
    (ht : truncated ans = true) (htc : tr.tcpquery query = none) :
    resolveDnsUpstream ext st request (.arr []) query =
      (.ok respond503, [Call.udp query, Call.tcp query]) := by
  simp [resolveDnsUpstream, emptyArray, h, hu, ht, htc]

/-- C3: on the plain-transport path (empty DoH endpoint set), the resolver
performs at most two transport attempts; the first is always the UDP query
with the query bytes; exactly one TCP follow-up with the identical query
bytes is issued precisely when the UDP answer exists and is truncated, and
then the outcome comes from the TCP result (the TCP answer, or 503 when
TCP yields nothing) — never from the UDP answer; when the UDP answer is
absent or not truncated, the trace is the single UDP call, so TCP is never
invoked. -/
theorem c3_udp_tcp_escalation
    (ext : ExtCaps) (st : ResolverState) (request : DnsRequest) (query : Bytes) (tr : Transport)
    (h : st.transport = some tr) :
    (resolveDnsUpstream ext st request (.arr []) query).2.length ≤ 2 ∧
    (resolveDnsUpstream ext st request (.arr []) query).2.head? = some (Call.udp query) ∧
    (∀ ans, tr.udpquery query = some ans → truncated ans = true →
      (resolveDnsUpstream ext st request (.arr []) query).2 = [Call.udp query, Call.tcp query] ∧
      (∀ ans2, tr.tcpquery query = some ans2 →
        (resolveDnsUpstream ext st request (.arr []) query).1 = .ok (responseOfAns ans2)) ∧
      (tr.tcpquery query = none →
        (resolveDnsUpstream ext st request (.arr []) query).1 = .ok respond503)) ∧
    (∀ ans, tr.udpquery query = some ans → truncated ans = false →
      (resolveDnsUpstream ext st request (.arr []) query).2 = [Call.udp query] ∧
      (resolveDnsUpstream ext st request (.arr []) query).1 = .ok (responseOfAns ans)) ∧
    (tr.udpquery query = none →
      (resolveDnsUpstream ext st request (.arr []) query).2 = [Call.udp query]) := by
  refine ⟨?_, ?_, ?_, ?_, ?_⟩
  · cases hu : tr.udpquery query with
    | none => rw [plain_udp_none ext st request query tr h hu]; simp
    | some ans =>
      cases ht : truncated ans with
      | false => rw [plain_not_trunc ext st request query tr ans h hu ht]; simp
      | true =>
        cases htc : tr.tcpquery query with
        | none => rw [plain_trunc_tcp_none ext st request query tr ans h hu ht htc]; simp
        | some a2 => rw [plain_trunc_tcp ext st request query tr ans a2 h hu ht htc]; simp
  · cases hu : tr.udpquery query with
    | none => rw [plain_udp_none ext st request query tr h hu]; rfl
    | some ans =>
      cases ht : truncated ans with
      | false => rw [plain_not_trunc ext st request query tr ans h hu ht]; rfl
      | true =>
        cases htc : tr.tcpquery query with
        | none => rw [plain_trunc_tcp_none ext st request query tr ans h hu ht htc]; rfl
        | some a2 => rw [plain_trunc_tcp ext st request query tr ans a2 h hu ht htc]; rfl
  · intro ans hu ht
    refine ⟨?_, ?_, ?_⟩
    · cases htc : tr.tcpquery query with
      | none => rw [plain_trunc_tcp_none ext st request query tr ans h hu ht htc]
      | some a2 => rw [plain_trunc_tcp ext st request query tr ans a2 h hu ht htc]
    · intro ans2 htc
      rw [plain_trunc_tcp ext st request query tr ans ans2 h hu ht htc]
    · intro htc
      rw [plain_trunc_tcp_none ext st request query tr ans h hu ht htc]
  · intro ans hu ht
    rw [plain_not_trunc ext st request query tr ans h hu ht]
    exact ⟨rfl, rfl⟩
  · intro hu
    rw [plain_udp_none ext st request query tr h hu]

/-- A transport whose UDP answer is truncated and whose TCP answer is
`[7, 7, 0]`. -/
def trTrunc : Transport :=
  { udpquery := fun _ => some [0, 0, 2], tcpquery := fun _ => some [7, 7, 0] }

/-- A resolver state holding the truncating transport. -/
def stT : ResolverState :=
  { http2 := false, nodeUtil := false, transport := some trTrunc, preferredDohResolvers := [] }

/-- Witness for C3 at a concrete input: the UDP answer is truncated, so
the trace is exactly UDP-then-TCP with the same bytes and the outcome is
the TCP answer. -/
theorem c3_udp_tcp_escalation_witness :
    (resolveDnsUpstream ext0 stT getReq0 (.arr []) [1]).2 = [Call.udp [1], Call.tcp [1]] ∧
    (resolveDnsUpstream ext0 stT getReq0 (.arr []) [1]).1 = .ok (responseOfAns [7, 7, 0]) := by
  have h := c3_udp_tcp_escalation ext0 stT getReq0 [1] trTrunc rfl
  have h3 := h.2.2.1 [0, 0, 2] rfl (by decide)
  exact ⟨h3.1, h3.2.1 [7, 7, 0] rfl⟩

/-- C8: on the plain-transport path, when the transport produces no answer
at all — UDP yields nothing, or a truncated UDP answer is followed by a
TCP attempt that yields nothing — the path returns (does not throw) the
generic "service unavailable" outcome, whose HTTP-like status is 503. -/
theorem c8_no_answer_503
    (ext : ExtCaps) (st : ResolverState) (request : DnsRequest) (query : Bytes) (tr : Transport)
    (h : st.transport = some tr)
    (hno : tr.udpquery query = none ∨
      ∃ ans, tr.udpquery query = some ans ∧ truncated ans = true ∧ tr.tcpquery query = none) :
    (resolveDnsUpstream ext st request (.arr []) query).1 = .ok respond503 ∧
    respond503.status = 503 := by
  constructor
  · rcases hno with hu | ⟨ans, hu, ht, htc⟩
    · rw [plain_udp_none ext st request query tr h hu]
    · rw [plain_trunc_tcp_none ext st request query tr ans h hu ht htc]
  · rfl

/-- A transport that never answers. -/
def trNone : Transport := { udpquery := fun _ => none, tcpquery := fun _ => none }

/-- A resolver state holding the never-answering transport. -/
def stN : ResolverState :=
  { http2 := false, nodeUtil := false, transport := some trNone, preferredDohResolvers := [] }

/-- Witness for C8 at a concrete input: UDP yields nothing and the path
returns the 503 outcome. -/
theorem c8_no_answer_503_witness :
    (resolveDnsUpstream ext0 stN getReq0 (.arr []) [3]).1 = .ok respond503 ∧
    respond503.status = 503 :=
  c8_no_answer_503 ext0 stN getReq0 [3] trNone rfl (Or.inl rfl)

/-! ## C4: the upstream selector -/

/-- A non-node, non-workers environment with a default and a secondary
preconfigured resolver. -/
def env0 : Env :=
  { isNode := false, isWorkers := false,
    dohResolver := "https://default.example/dns-query",
    secondaryDohResolver := "https://second.example/dns-query" }

/-- The failing branch of C4, evaluated: with no plain transport, a blank
user resolver URL and a non-workers environment, `determineDohResolvers`
returns the *bare string* `envutil.dohResolver()` (line 82 lacks the array
brackets), not the one-element array of the default endpoint that the
claim and the other branches' types call for. -/
theorem c4_selector_default_branch_bug :
    determineDohResolvers env0 (freshResolver env0) "" =
      .str "https://default.example/dns-query" ∧
    decide (determineDohResolvers env0 (freshResolver env0) "" =
      UrlsVal.arr ["https://default.example/dns-query"]) = false :=
  ⟨by decide, by decide⟩

/-! ## C6: the response decoder -/

/-- C6: `decodeResponse` fails on a missing outcome with the
"no upstream result" error; on a non-success status it fails with an error
carrying the status code and status text and the DNS codec is never
invoked (the Boolean component of the model is `false`); only on a success
status is the codec invoked, its value or its own failure becoming the
result. -/
theorem c6_decode_guard (ext : ExtCaps) (r : Response) :
    decodeResponse ext none = (.error (.err "no upstream result"), false) ∧
    (responseOk r = false →
      decodeResponse ext (some r) =
        (.error (.err (toString r.status ++ " http err: " ++ r.statusText)), false)) ∧
    (responseOk r = true →
      (decodeResponse ext (some r)).2 = true ∧
      ((∃ pkt, ext.decode r.body = .ok pkt ∧
          (decodeResponse ext (some r)).1 = .ok { dnsPacket := pkt, dnsBuffer := r.body }) ∨
        (∃ e, ext.decode r.body = .error e ∧
          (decodeResponse ext (some r)).1 = .error (.err e)))) := by
  refine ⟨rfl, ?_, ?_⟩
  · intro hok
    simp [decodeResponse, hok]
  · intro hok
    cases hd : ext.decode r.body with
    | ok pkt =>
      refine ⟨?_, Or.inl ⟨pkt, rfl, ?_⟩⟩ <;> simp [decodeResponse, hok, hd]
    | error e =>
      refine ⟨?_, Or.inr ⟨e, rfl, ?_⟩⟩ <;> simp [decodeResponse, hok, hd]

/-- Witness for C6 at concrete inputs: the 503 outcome fails with the
status-carrying error without invoking the codec, and a 200 outcome does
invoke the codec. -/
theorem c6_decode_guard_witness :
    decodeResponse ext0 (some respond503) =
      (.error (.err "503 http err: Service Unavailable"), false) ∧
    (decodeResponse ext0 (some (responseOfAns [1, 2]))).2 = true := by
  constructor
  · simpa using (c6_decode_guard ext0 respond503).2.1 (by decide)
  · exact ((c6_decode_guard ext0 (responseOfAns [1, 2])).2.2 (by decide)).1


/-! ## C5: the persistent-stream client is unreachable from RethinkModule -/

theorem dohAttempts_adapter (ext : ExtCaps) (st : ResolverState) (request : DnsRequest)
    (urls : List String) (query : Bytes) :
    ∀ ps cs, dohAttempts ext st request urls query = some (ps, cs) →
      ∀ a r, Call.doh a r ∈ cs → a = adapterOf st := by
  induction urls with
  | nil =>
    intro ps cs h a r hmem
    rw [dohAttempts_nil] at h
    simp only [Option.some.injEq, Prod.mk.injEq] at h
    rw [← h.2] at hmem
    simp at hmem
  | cons u rest ih =>
    intro ps cs h a r hmem
    cases hu : emptyString u with
    | true =>
      simp only [dohAttempts, hu, if_true] at h
      exact ih ps cs h a r hmem
    | false =>
      cases hb : buildDohRequest ext request u query with
      | none => simp [dohAttempts, hu, hb] at h
      | some req =>
        cases hrec : dohAttempts ext st request rest query with
        | none => simp [dohAttempts, hu, hb, hrec] at h
        | some pc =>
          obtain ⟨ps9, cs9⟩ := pc
          simp only [dohAttempts, hu, Bool.false_eq_true, if_false, hb, hrec,
            Option.some.injEq, Prod.mk.injEq] at h
          rw [← h.2] at hmem
          rcases List.mem_cons.mp hmem with h3 | h4
          · simp only [Call.doh.injEq] at h3
            exact h3.1
          · exact ih ps9 cs9 hrec a r h4

theorem emptyVal_no_doh (ext : ExtCaps) (st : ResolverState) (request : DnsRequest)
    (query : Bytes) (v : UrlsVal) (he : emptyArray v = true) (a : Adapter) (r : DnsRequest)
    (hmem : Call.doh a r ∈ (resolveDnsUpstream ext st request v query).2) : False := by
  cases htr : st.transport with
  | none => simp [resolveDnsUpstream, he, htr] at hmem
  | some t =>
    cases hu : t.udpquery query with
    | none => simp [resolveDnsUpstream, he, htr, hu] at hmem
    | some ans =>
      cases ht : truncated ans with
      | false => simp [resolveDnsUpstream, he, htr, hu, ht] at hmem
      | true =>
        cases htc : t.tcpquery query with
        | none => simp [resolveDnsUpstream, he, htr, hu, ht, htc] at hmem
        | some a2 => simp [resolveDnsUpstream, he, htr, hu, ht, htc] at hmem

theorem resolveDnsUpstream_adapter (ext : ExtCaps) (st : ResolverState) (request : DnsRequest)
    (v : UrlsVal) (query : Bytes) :
    ∀ a r, Call.doh a r ∈ (resolveDnsUpstream ext st request v query).2 → a = adapterOf st := by
  intro a r hmem
  cases he : emptyArray v with
  | true => exact (emptyVal_no_doh ext st request query v he a r hmem).elim
  | false =>
    cases hd : dohAttempts ext st request (jsIter v) query with
    | none =>
      have hz : (resolveDnsUpstream ext st request v query).2 = [] := by
        simp [resolveDnsUpstream, he, hd]
      rw [hz] at hmem
      simp at hmem
    | some pc =>
      obtain ⟨ps, cs⟩ := pc
      have hz : (resolveDnsUpstream ext st request v query).2 = cs := by
        simp [resolveDnsUpstream, he, hd]
      rw [hz] at hmem
      exact dohAttempts_adapter ext st request (jsIter v) query ps cs hd a r hmem

theorem resolveDns_trace (env : Env) (ext : ExtCaps) (st : ResolverState) (p : Param) :
    (resolveDns env ext st p).2 =
      (resolveDnsUpstream ext st p.request (determineDohResolvers env st p.userDnsResolverUrl)
        p.requestBodyBuffer).2 := by
  rcases hr : resolveDnsUpstream ext st p.request (determineDohResolvers env st p.userDnsResolverUrl)
    p.requestBodyBuffer with ⟨fst, snd⟩
  cases fst <;> simp [resolveDns, hr]

/-- C5: on a freshly constructed resolver, after `lazyInit` the `doh2`
client is unreachable: (1) the `http2` capability is present only when the
plain transport is also present; (2) whenever the plain transport is
present the selector returns the empty endpoint set, so the plain path is
taken; (3) whenever the `http2` capability is absent every DoH attempt of
a resolution is dispatched through the generic fetch adapter; and so (4)
every DoH attempt of a whole `RethinkModule` resolution uses the fetch
adapter — `doh2` is never invoked. -/
theorem c5_doh2_never_used (env : Env) (ext : ExtCaps) (t0 : Transport) (p : Param) :
    ((lazyInit env t0 (freshResolver env)).http2 = true →
      (lazyInit env t0 (freshResolver env)).transport.isSome = true) ∧
    (∀ st : ResolverState, st.transport.isSome = true →
      ∀ u : String, determineDohResolvers env st u = .arr []) ∧
    (∀ st : ResolverState, st.http2 = false →
      ∀ a r, Call.doh a r ∈ (resolveDns env ext st p).2 → a = Adapter.fetch) ∧
    (∀ a r, Call.doh a r ∈ (rethinkModule env ext t0 p).2 → a = Adapter.fetch) := by
  refine ⟨?_, ?_, ?_, ?_⟩
  · intro h2
    cases hn : env.isNode with
    | false => simp [lazyInit, freshResolver, hn] at h2
    | true => simp [lazyInit, freshResolver, hn]
  · intro st hs u
    cases htr : st.transport with
    | none => rw [htr] at hs; simp at hs
    | some t => simp [determineDohResolvers, htr]
  · intro st h0 a r hmem
    rw [resolveDns_trace] at hmem
    have ha := resolveDnsUpstream_adapter ext st p.request _ p.requestBodyBuffer a r hmem
    simp [ha, adapterOf, h0]
  · intro a r hmem
    have hmem2 : Call.doh a r ∈ (resolveDns env ext (lazyInit env t0 (freshResolver env)) p).2 :=
      hmem
    cases hn : env.isNode with
    | false =>
      have h0 : (lazyInit env t0 (freshResolver env)).http2 = false := by
        simp [lazyInit, freshResolver, hn]
      rw [resolveDns_trace] at hmem2
      have ha := resolveDnsUpstream_adapter ext _ p.request _ p.requestBodyBuffer a r hmem2
      simp [ha, adapterOf, h0]
    | true =>
      exfalso
      have htr : (lazyInit env t0 (freshResolver env)).transport = some t0 := by
        simp [lazyInit, freshResolver, hn]
      have hsel : determineDohResolvers env (lazyInit env t0 (freshResolver env))
          p.userDnsResolverUrl = .arr [] := by
        simp [determineDohResolvers, htr]
      rw [resolveDns_trace, hsel] at hmem2
      exact emptyVal_no_doh ext _ p.request p.requestBodyBuffer (.arr []) rfl a r hmem2

/-- A node environment. -/
def envNode : Env :=
  { isNode := true, isWorkers := false,
    dohResolver := "https://default.example/dns-query",
    secondaryDohResolver := "https://second.example/dns-query" }

/-- A concrete parameter bag. -/
def p0 : Param := { request := getReq0, requestBodyBuffer := [1], userDnsResolverUrl := "" }

/-- Witness for C5 at concrete inputs: on node, `lazyInit` installs the
plain transport alongside `http2`, and a state with a transport makes the
selector return the empty endpoint set. -/
theorem c5_doh2_never_used_witness :
    (lazyInit envNode trNone (freshResolver envNode)).transport.isSome = true ∧
    determineDohResolvers envNode stT "" = .arr [] :=
  ⟨(c5_doh2_never_used envNode ext0 trNone p0).1 rfl,
   (c5_doh2_never_used envNode ext0 trNone p0).2.1 stT rfl ""⟩

/-! ## C9, C10: the doh2 exchange -/

theorem h2run_cons (tph : List (String × String) → RespInit) (cf : Bool) (s : H2St)
    (e : H2Ev) (rest : List H2Ev) :
    h2run tph cf s (e :: rest) =
      ((h2run tph cf (h2step tph cf s e).1 rest).1,
        (h2step tph cf s e).2 ++ (h2run tph cf (h2step tph cf s e).1 rest).2) := rfl

theorem h2step_state_cf (tph : List (String × String) → RespInit) (cf : Bool) (s : H2St)
    (e : H2Ev) : (h2step tph cf s e).1 = (h2step tph (!cf) s e).1 := by
  obtain ⟨resp, chunks, settled⟩ := s
  cases e with
  | connError m => cases settled <;> rfl
  | response h => cases resp <;> rfl
  | data c => cases resp <;> rfl
  | streamEnd =>
    cases resp with
    | none => rfl
    | some h => cases settled <;> rfl
  | streamError m => cases settled <;> rfl

theorem h2run_state_cf (tph : List (String × String) → RespInit) (cf : Bool)
    (events : List H2Ev) : ∀ s : H2St,
    (h2run tph cf s events).1 = (h2run tph (!cf) s events).1 := by
  induction events with
  | nil => intro s; rfl
  | cons e rest ih =>
    intro s
    rw [h2run_cons, h2run_cons]
    simp only
    rw [h2step_state_cf tph cf s e]
    exact ih _

theorem h2step_ok_close (tph : List (String × String) → RespInit) (cf : Bool) (s : H2St)
    (e : H2Ev) (r : Response)
    (h : (h2step tph cf s e).1.settled = some (.ok r)) :
    s.settled = some (.ok r) ∨ DohAction.closeConn (!cf) ∈ (h2step tph cf s e).2 := by
  obtain ⟨resp, chunks, settled⟩ := s
  cases e with
  | connError m =>
    cases settled with
    | none => simp [h2step] at h
    | some x => left; simpa [h2step] using h
  | response hd =>
    cases resp with
    | none => left; simpa [h2step] using h
    | some hd2 => left; simpa [h2step] using h
  | data c =>
    cases resp with
    | none => left; simpa [h2step] using h
    | some hd2 => left; simpa [h2step] using h
  | streamEnd =>
    cases resp with
    | none => left; simpa [h2step] using h
    | some hd2 =>
      cases settled with
      | none => right; simp [h2step]
      | some x => left; simpa [h2step] using h
  | streamError m =>
    cases settled with
    | none => simp [h2step] at h
    | some x => left; simpa [h2step] using h

theorem h2run_ok_close (tph : List (String × String) → RespInit) (cf : Bool)
    (events : List H2Ev) : ∀ (s : H2St) (r : Response),
    (h2run tph cf s events).1.settled = some (.ok r) →
    s.settled = some (.ok r) ∨ DohAction.closeConn (!cf) ∈ (h2run tph cf s events).2 := by
  induction events with
  | nil => intro s r h; left; exact h
  | cons e rest ih =>
    intro s r h
    rw [h2run_cons] at h
    simp only at h
    rw [h2run_cons]
    simp only
    rcases ih (h2step tph cf s e).1 r h with h1 | h2
    · rcases h2step_ok_close tph cf s e r h1 with h3 | h4
      · left; exact h3
      · right; exact List.mem_append.mpr (Or.inl h4)
    · right; exact List.mem_append.mpr (Or.inr h2)

theorem doh2Run_trace_eq (tph : List (String × String) → RespInit) (request : DnsRequest)
    (cf : Bool) (events : List H2Ev) :
    (doh2Run tph request cf events).1 =
      doh2ProgOrder request ++ (h2run tph cf { resp := none, chunks := [], settled := none } events).2 := rfl

theorem doh2Run_result_eq (tph : List (String × String) → RespInit) (request : DnsRequest)
    (cf : Bool) (events : List H2Ev) :
    (doh2Run tph request cf events).2 =
      (h2run tph cf { resp := none, chunks := [], settled := none } events).1.settled := rfl

/-- C9 (amended): in a `doh2` exchange the connection is closed (via the
best-effort `util.safeBox(c.close)`) on the successful-completion path:
whether the close itself fails never influences the exchange's result, and
whenever the exchange resolves successfully a close attempt is in the
trace.  (On error-only exchanges the connection is *not* closed — that is
the corrected part of the claim.) -/
theorem c9_close_on_success_only (tph : List (String × String) → RespInit)
    (request : DnsRequest) (cf : Bool) (events : List H2Ev) :
    (doh2Run tph request cf events).2 = (doh2Run tph request (!cf) events).2 ∧
    (∀ r : Response, (doh2Run tph request cf events).2 = some (.ok r) →
      DohAction.closeConn (!cf) ∈ (doh2Run tph request cf events).1) := by
  constructor
  · rw [doh2Run_result_eq, doh2Run_result_eq, h2run_state_cf]
  · intro r h
    rw [doh2Run_result_eq] at h
    rcases h2run_ok_close tph cf events _ r h with h3 | h4
    · simp at h3
    · rw [doh2Run_trace_eq]
      exact List.mem_append.mpr (Or.inr h4)

/-- A concrete pseudo-header transform. -/
def tph0 : List (String × String) → RespInit :=
  fun _ => { status := 200, statusText := "OK", headers := [] }

/-- A concrete successful event schedule: response headers, one data
chunk, end of stream. -/
def ev1 : List H2Ev := [H2Ev.response [], H2Ev.data [1], H2Ev.streamEnd]

/-- Counterexample to C9 as frozen: an exchange that errors at the
connection level.  The exchange completes (with an error), yet the trace
contains no connection-close attempt — the connection is *not* closed
unconditionally "after the exchange completes or errors"; it is closed
only on the successful-completion path. -/
theorem c9_counterexample :
    (doh2Run tph0 getReq0 false [H2Ev.connError "ECONNRESET"]).2 =
      some (.error "ECONNRESET") ∧
    hasClose (doh2Run tph0 getReq0 false [H2Ev.connError "ECONNRESET"]).1 = false :=
  ⟨by decide, by decide⟩

/-- Witness for C9 (amended) at a concrete input: a successful exchange
contains a close attempt in its trace. -/
theorem c9_close_on_success_only_witness :
    DohAction.closeConn true ∈ (doh2Run tph0 getReq0 false ev1).1 :=
  (c9_close_on_success_only tph0 getReq0 false ev1).2
    { status := 200, statusText := "OK", headers := [], body := [1] } (by decide)

theorem doh2Run_get_lt6 (tph : List (String × String) → RespInit) (request : DnsRequest)
    (cf : Bool) (events : List H2Ev) (j : Nat) (hj : j < 6) :
    (doh2Run tph request cf events).1[j]? = (doh2ProgOrder request)[j]? := by
  rw [doh2Run_trace_eq]
  exact List.getElem?_append_left (by simpa [doh2ProgOrder] using hj)

/-- C10 (amended): in every `doh2` exchange, the connection error handler
(index 1), the stream response handler (index 3) and the stream error
handler (index 4) are registered strictly before the query bytes are
written (index 5); the data and end handlers, however, are registered
*inside* the response handler — upon receipt of the response headers — so
any of their registrations in the trace comes strictly after the write. -/
theorem c10_write_after_handlers (tph : List (String × String) → RespInit)
    (request : DnsRequest) (cf : Bool) (events : List H2Ev) :
    (doh2Run tph request cf events).1[1]? = some DohAction.regConnError ∧
    (doh2Run tph request cf events).1[3]? = some DohAction.regResponse ∧
    (doh2Run tph request cf events).1[4]? = some DohAction.regReqError ∧
    (doh2Run tph request cf events).1[5]? = some (DohAction.write (bodyBytes request)) ∧
    (∀ j, (doh2Run tph request cf events).1[j]? = some DohAction.regData → 5 < j) ∧
    (∀ j, (doh2Run tph request cf events).1[j]? = some DohAction.regEnd → 5 < j) := by
  refine ⟨?_, ?_, ?_, ?_, ?_, ?_⟩
  · rw [doh2Run_get_lt6 tph request cf events 1 (by omega)]; rfl
  · rw [doh2Run_get_lt6 tph request cf events 3 (by omega)]; rfl
  · rw [doh2Run_get_lt6 tph request cf events 4 (by omega)]; rfl
  · rw [doh2Run_get_lt6 tph request cf events 5 (by omega)]; rfl
  · intro j h
    rcases Nat.lt_or_ge j 6 with h6 | h6
    · rw [doh2Run_get_lt6 tph request cf events j h6] at h
      interval_cases j <;> simp [doh2ProgOrder] at h
    · omega
  · intro j h
    rcases Nat.lt_or_ge j 6 with h6 | h6
    · rw [doh2Run_get_lt6 tph request cf events j h6] at h
      interval_cases j <;> simp [doh2ProgOrder] at h
    · omega

/-- Counterexample to C10 as frozen: in a concrete successful exchange the
write of the query bytes sits at trace index 5 while the data handler is
registered only at index 6 (and the end handler at index 7) — the write
does *not* happen after all of the response, data, end and error handlers
are registered: the data/end registrations happen after it. -/
theorem c10_counterexample :
    (doh2Run tph0 getReq0 false ev1).1[5]? = some (DohAction.write []) ∧
    (doh2Run tph0 getReq0 false ev1).1[6]? = some DohAction.regData ∧
    (doh2Run tph0 getReq0 false ev1).1[7]? = some DohAction.regEnd :=
  ⟨by decide, by decide, by decide⟩

/-- Witness for C10 (amended) at a concrete input, discharging the
positional hypotheses at the registration of the data handler. -/
theorem c10_write_after_handlers_witness :
    (doh2Run tph0 getReq0 false ev1).1[1]? = some DohAction.regConnError ∧ 5 < 6 :=
  ⟨(c10_write_after_handlers tph0 getReq0 false ev1).1,
   (c10_write_after_handlers tph0 getReq0 false ev1).2.2.2.2.1 6 (by decide)⟩
